import Mathlib

/-!
Shallow embedding of `src/ToleranceChecker.cpp` (ToleranceMonitor).

Signal values are `ℚ` (the C++ `double`), time points and durations are `Int`
milliseconds (the C++ `steady_clock` time points and `int` fields `tcMs` and
`tsMs`). The external callbacks are modelled as data: the value source is
supplied per tick as an `Option ℚ` (`none` = the callback threw an exception),
and the warning and fault notifiers are modelled by presence flags (the null
test `if (callback)` on a `std::function`) together with an emitted event
list recording every invocation the code performs.
-/

namespace ToleranceMonitor

/-- States of `enum class SignalState` from `ToleranceChecker.h`. -/
inductive SignalState where
  | UNKNOWN
  | NORMAL
  | WARNING
  | FAULT
deriving DecidableEq, Repr

/-- Fields of `struct SignalConfig`. The three callbacks are external; the
two notifier slots are kept as presence flags, the value source is passed to
`checkSignal` per tick. -/
structure SignalConfig where
  targetValue : ℚ
  warningThreshold : ℚ
  faultThreshold : ℚ
  hasWarningCallback : Bool
  hasFaultCallback : Bool
  tcMs : Int
  tsMs : Int
deriving DecidableEq, Repr

/-- Fields of `struct SignalInfo`: config, current state, registration time
and the two confirmation timers. -/
structure SignalInfo where
  config : SignalConfig
  currentState : SignalState
  registrationTime : Int
  warningStartTime : Int
  faultStartTime : Int
  warningTimerActive : Bool
  faultTimerActive : Bool
deriving DecidableEq, Repr

/-- The record created by `registerSignal`: `SignalInfo{}` default-constructed
(state `UNKNOWN`, timers inactive, epoch time points) with `config` and
`registrationTime` then assigned. -/
def mkSignalInfo (config : SignalConfig) (now : Int) : SignalInfo :=
  { config := config
    currentState := SignalState.UNKNOWN
    registrationTime := now
    warningStartTime := 0
    faultStartTime := 0
    warningTimerActive := false
    faultTimerActive := false }

/-- An invocation of a warning or fault notifier with its arguments. -/
inductive CallbackEvent where
  | warning (signalId : String) (value : ℚ)
  | fault (signalId : String) (value : ℚ)
deriving DecidableEq, Repr

/-- The `signalId` argument an event was fired with. -/
def CallbackEvent.signalId : CallbackEvent → String
  | .warning id _ => id
  | .fault id _ => id

/-- Whether an event is a warning-notifier invocation. -/
def CallbackEvent.isWarning : CallbackEvent → Bool
  | .warning _ _ => true
  | .fault _ _ => false

/-- Whether an event is a fault-notifier invocation. -/
def CallbackEvent.isFault : CallbackEvent → Bool
  | .warning _ _ => false
  | .fault _ _ => true

/-- The number of warning-notifier invocations in an event list. -/
def countWarning (evs : List CallbackEvent) : Nat :=
  evs.countP (fun e => e.isWarning)

/-- Method `ToleranceChecker::handleStateTransition` (lines 198 to 236):
commit the new state, then update the timers per the switch. -/
def handleStateTransition (sig : SignalInfo) (newState : SignalState)
    (currentTime : Int) : SignalInfo :=
  let sig1 := { sig with currentState := newState }
  match newState with
  | SignalState.NORMAL =>
      { sig1 with warningTimerActive := false, faultTimerActive := false }
  | SignalState.WARNING =>
      let sig2 :=
        if sig1.warningTimerActive = false then
          { sig1 with warningStartTime := currentTime, warningTimerActive := true }
        else sig1
      { sig2 with faultTimerActive := false }
  | SignalState.FAULT =>
      if sig1.faultTimerActive = false then
        { sig1 with faultStartTime := currentTime, faultTimerActive := true }
      else sig1
  | SignalState.UNKNOWN => sig1

/-- The `checkTimer` lambda of `checkAndTriggerCallback`, instantiated at the
warning timer: if active and elapsed at least `tsMs`, deactivate and invoke
the warning notifier when present. -/
def checkWarningTimer (signalId : String) (sig : SignalInfo) (currentValue : ℚ)
    (currentTime : Int) : SignalInfo × List CallbackEvent :=
  if sig.warningTimerActive = true then
    if sig.config.tsMs ≤ currentTime - sig.warningStartTime then
      ({ sig with warningTimerActive := false },
       if sig.config.hasWarningCallback then
         [CallbackEvent.warning signalId currentValue]
       else [])
    else (sig, [])
  else (sig, [])

/-- The `checkTimer` lambda instantiated at the fault timer. -/
def checkFaultTimer (signalId : String) (sig : SignalInfo) (currentValue : ℚ)
    (currentTime : Int) : SignalInfo × List CallbackEvent :=
  if sig.faultTimerActive = true then
    if sig.config.tsMs ≤ currentTime - sig.faultStartTime then
      ({ sig with faultTimerActive := false },
       if sig.config.hasFaultCallback then
         [CallbackEvent.fault signalId currentValue]
       else [])
    else (sig, [])
  else (sig, [])

/-- Method `ToleranceChecker::checkAndTriggerCallback` (lines 176 to 196):
check the warning timer, then the fault timer. -/
def checkAndTriggerCallback (signalId : String) (sig : SignalInfo)
    (currentValue : ℚ) (currentTime : Int) : SignalInfo × List CallbackEvent :=
  let r1 := checkWarningTimer signalId sig currentValue currentTime
  let r2 := checkFaultTimer signalId r1.1 currentValue currentTime
  (r2.1, r1.2 ++ r2.2)

/-- Lines 159 to 165 of `checkSignal`: the target state from the deviation,
fault dominating. -/
def targetStateOf (cfg : SignalConfig) (deviation : ℚ) : SignalState :=
  if cfg.faultThreshold ≤ deviation then SignalState.FAULT
  else if cfg.warningThreshold ≤ deviation then SignalState.WARNING
  else SignalState.NORMAL

/-- Method `ToleranceChecker::checkSignal` (lines 99 to 174). `valueResult`
is the outcome of `sig.config.valueCallback(signalId)`: `none` models a
thrown exception (caught; the tick is aborted for this signal). -/
def checkSignal (signalId : String) (sig : SignalInfo) (now : Int)
    (valueResult : Option ℚ) : SignalInfo × List CallbackEvent :=
  match valueResult with
  | none => (sig, [])
  | some currentValue =>
      if now - sig.registrationTime < sig.config.tcMs then (sig, [])
      else
        let deviation := |currentValue - sig.config.targetValue|
        let targetState := targetStateOf sig.config deviation
        let sig1 :=
          if targetState ≠ sig.currentState then
            handleStateTransition sig targetState now
          else sig
        checkAndTriggerCallback signalId sig1 currentValue now

/-- A sequence of evaluator ticks on one signal: each entry is the tick time
and the value-source outcome at that tick. Events are concatenated in tick
order. -/
def runTicks (signalId : String) (sig : SignalInfo) :
    List (Int × Option ℚ) → SignalInfo × List CallbackEvent
  | [] => (sig, [])
  | (t, v) :: rest =>
      let r1 := checkSignal signalId sig t v
      let r2 := runTicks signalId r1.1 rest
      (r2.1, r1.2 ++ r2.2)

/-- A tick sequence in which every value acquisition succeeds. -/
def runTicksOk (signalId : String) (sig : SignalInfo)
    (ticks : List (Int × ℚ)) : SignalInfo × List CallbackEvent :=
  runTicks signalId sig (ticks.map (fun p => (p.1, some p.2)))

/-- State of the `ToleranceChecker` singleton: the signal map (an
association list with unique keys), the monitoring flag and the poll
interval; the worker thread itself is external to the state. -/
structure ToleranceChecker where
  signals : List (String × SignalInfo)
  isMonitoring : Bool
  checkIntervalMs : Int
deriving Repr

/-- Method `ToleranceChecker::registerSignal` (lines 14 to 29): reject a
present id, otherwise emplace a default record carrying the config and
`now`. -/
def registerSignal (tc : ToleranceChecker) (signalId : String)
    (config : SignalConfig) (now : Int) : ToleranceChecker × Bool :=
  match tc.signals.lookup signalId with
  | some _ => (tc, false)
  | none =>
      ({ tc with signals := tc.signals ++ [(signalId, mkSignalInfo config now)] },
       true)

/-- Method `ToleranceChecker::removeSignal` (lines 64 to 72): erase the
entry if present. -/
def removeSignal (tc : ToleranceChecker) (signalId : String) : ToleranceChecker :=
  { tc with signals := tc.signals.eraseP (fun p => p.1 == signalId) }

/-- Method `ToleranceChecker::getSignalState` (lines 74 to 83): the record
state, or `NORMAL` when the id is absent. -/
def getSignalState (tc : ToleranceChecker) (signalId : String) : SignalState :=
  match tc.signals.lookup signalId with
  | some sig => sig.currentState
  | none => SignalState.NORMAL

/-- Method `ToleranceChecker::stopMonitoring` (lines 46 to 58): no-op when
not running, otherwise clear the flag (the join of the worker thread is
external to the modelled state). -/
def stopMonitoring (tc : ToleranceChecker) : ToleranceChecker :=
  if tc.isMonitoring = false then tc
  else { tc with isMonitoring := false }

/-- One iteration of the sweep in `ToleranceChecker::monitoringLoop` (lines
86 to 93): evaluate every registered signal at time `now`, the value-source
outcome for each id given by `env`. -/
def sweepSignals (now : Int) (env : String → Option ℚ) :
    List (String × SignalInfo) → List (String × SignalInfo) × List CallbackEvent
  | [] => ([], [])
  | (id, sig) :: rest =>
      let r1 := checkSignal id sig now (env id)
      let r2 := sweepSignals now env rest
      ((id, r1.1) :: r2.1, r1.2 ++ r2.2)

/-- A concrete configuration used by the closed counterexample runs: target
0, warning band from deviation 1, fault band from deviation 10, no arm
delay, confirmation window 100 ms, both notifiers present. -/
def cfg0 : SignalConfig :=
  { targetValue := 0
    warningThreshold := 1
    faultThreshold := 10
    hasWarningCallback := true
    hasFaultCallback := true
    tcMs := 0
    tsMs := 100 }

/-- The record `registerSignal` creates for `cfg0` at time 0. -/
def sig0 : SignalInfo := mkSignalInfo cfg0 0

/-- An empty checker, as after construction of the singleton. -/
def tc0 : ToleranceChecker :=
  { signals := [], isMonitoring := false, checkIntervalMs := 100 }

/-- Runtime-state invariant maintained by the evaluator: a record committed
to `NORMAL` has both confirmation timers inactive (the `NORMAL` transition
clears both and no later tick re-activates one without leaving `NORMAL`). -/
def normalTimersInv (sig : SignalInfo) : Prop :=
  sig.currentState = SignalState.NORMAL →
    sig.warningTimerActive = false ∧ sig.faultTimerActive = false

/-- The checker holding only the record of `cfg0` registered at time 0
under id `a`. -/
def tc1 : ToleranceChecker := (registerSignal tc0 "a" cfg0 0).1

/-- The `cfg0` configuration with an arm delay of 1000 ms. -/
def cfgA : SignalConfig :=
  { targetValue := 0
    warningThreshold := 1
    faultThreshold := 10
    hasWarningCallback := true
    hasFaultCallback := true
    tcMs := 1000
    tsMs := 100 }

/-- The record `registerSignal` creates for `cfgA` at time 0. -/
def sigA : SignalInfo := mkSignalInfo cfgA 0

/-- An armed record of `cfg0` committed to `NORMAL` with both timers
inactive. -/
def sigN : SignalInfo :=
  { config := cfg0
    currentState := SignalState.NORMAL
    registrationTime := 0
    warningStartTime := 0
    faultStartTime := 0
    warningTimerActive := false
    faultTimerActive := false }

/-- An armed record of `cfg0` committed to `WARNING` whose confirmation
timer has already fired. -/
def sigW : SignalInfo :=
  { config := cfg0
    currentState := SignalState.WARNING
    registrationTime := 0
    warningStartTime := 0
    faultStartTime := 0
    warningTimerActive := false
    faultTimerActive := false }

/-- The `cfg0` configuration with neither notifier registered (null
`std::function` slots). -/
def cfgQ : SignalConfig :=
  { targetValue := 0
    warningThreshold := 1
    faultThreshold := 10
    hasWarningCallback := false
    hasFaultCallback := false
    tcMs := 0
    tsMs := 100 }

/-- An armed record of `cfgQ` in the warning band with an expired warning
confirmation timer. -/
def sigQ : SignalInfo :=
  { config := cfgQ
    currentState := SignalState.WARNING
    registrationTime := 0
    warningStartTime := 0
    faultStartTime := 0
    warningTimerActive := true
    faultTimerActive := false }

/-- A value source whose acquisition callback throws for id `bad` and
returns 20 otherwise. -/
def env0 : String → Option ℚ :=
  fun id => if id = "bad" then none else some 20

/-! Helper lemmas: constructor disequalities of `SignalState`, used to let
`simp` resolve the transition guards. -/

theorem unknown_ne_normal : SignalState.UNKNOWN ≠ SignalState.NORMAL := by decide

theorem unknown_ne_warning : SignalState.UNKNOWN ≠ SignalState.WARNING := by decide

theorem unknown_ne_fault : SignalState.UNKNOWN ≠ SignalState.FAULT := by decide

theorem normal_ne_unknown : SignalState.NORMAL ≠ SignalState.UNKNOWN := by decide

theorem normal_ne_warning : SignalState.NORMAL ≠ SignalState.WARNING := by decide

theorem normal_ne_fault : SignalState.NORMAL ≠ SignalState.FAULT := by decide

theorem warning_ne_unknown : SignalState.WARNING ≠ SignalState.UNKNOWN := by decide

theorem warning_ne_normal : SignalState.WARNING ≠ SignalState.NORMAL := by decide

theorem warning_ne_fault : SignalState.WARNING ≠ SignalState.FAULT := by decide

theorem fault_ne_unknown : SignalState.FAULT ≠ SignalState.UNKNOWN := by decide

theorem fault_ne_normal : SignalState.FAULT ≠ SignalState.NORMAL := by decide

theorem fault_ne_warning : SignalState.FAULT ≠ SignalState.WARNING := by decide

/-! Helper lemmas: equational characterizations of the evaluator pieces. -/

theorem targetStateOf_fault {cfg : SignalConfig} {d : ℚ}
    (h : cfg.faultThreshold ≤ d) : targetStateOf cfg d = SignalState.FAULT := by
  simp [targetStateOf, h]

theorem targetStateOf_warning {cfg : SignalConfig} {d : ℚ}
    (h1 : cfg.warningThreshold ≤ d) (h2 : d < cfg.faultThreshold) :
    targetStateOf cfg d = SignalState.WARNING := by
  simp [targetStateOf, h1, not_le.mpr h2]

theorem targetStateOf_normal {cfg : SignalConfig} {d : ℚ}
    (h1 : d < cfg.warningThreshold) (h2 : d < cfg.faultThreshold) :
    targetStateOf cfg d = SignalState.NORMAL := by
  simp [targetStateOf, not_le.mpr h1, not_le.mpr h2]

theorem targetStateOf_ne_unknown (cfg : SignalConfig) (d : ℚ) :
    targetStateOf cfg d ≠ SignalState.UNKNOWN := by
  unfold targetStateOf
  split
  · exact fault_ne_unknown
  · split
    · exact warning_ne_unknown
    · exact normal_ne_unknown

theorem handleStateTransition_normal (sig : SignalInfo) (t : Int) :
    handleStateTransition sig SignalState.NORMAL t =
      { sig with currentState := SignalState.NORMAL,
                 warningTimerActive := false, faultTimerActive := false } := rfl

theorem handleStateTransition_warning_fresh {sig : SignalInfo} (t : Int)
    (h : sig.warningTimerActive = false) :
    handleStateTransition sig SignalState.WARNING t =
      { sig with currentState := SignalState.WARNING,
                 warningStartTime := t, warningTimerActive := true,
                 faultTimerActive := false } := by
  simp [handleStateTransition, h]

theorem handleStateTransition_warning_active {sig : SignalInfo} (t : Int)
    (h : sig.warningTimerActive = true) :
    handleStateTransition sig SignalState.WARNING t =
      { sig with currentState := SignalState.WARNING,
                 faultTimerActive := false } := by
  simp [handleStateTransition, h]

theorem handleStateTransition_fault_fresh {sig : SignalInfo} (t : Int)
    (h : sig.faultTimerActive = false) :
    handleStateTransition sig SignalState.FAULT t =
      { sig with currentState := SignalState.FAULT,
                 faultStartTime := t, faultTimerActive := true } := by
  simp [handleStateTransition, h]

theorem handleStateTransition_fault_active {sig : SignalInfo} (t : Int)
    (h : sig.faultTimerActive = true) :
    handleStateTransition sig SignalState.FAULT t =
      { sig with currentState := SignalState.FAULT } := by
  simp [handleStateTransition, h]

theorem handleStateTransition_currentState (sig : SignalInfo)
    (st : SignalState) (t : Int) :
    (handleStateTransition sig st t).currentState = st := by
  unfold handleStateTransition
  cases st <;> simp <;> split <;> rfl

theorem checkWarningTimer_inactive {sig : SignalInfo} (id : String) (v : ℚ)
    (t : Int) (h : sig.warningTimerActive = false) :
    checkWarningTimer id sig v t = (sig, []) := by
  simp [checkWarningTimer, h]

theorem checkWarningTimer_pending {sig : SignalInfo} (id : String) (v : ℚ)
    (t : Int) (h : sig.warningTimerActive = true)
    (h2 : ¬ sig.config.tsMs ≤ t - sig.warningStartTime) :
    checkWarningTimer id sig v t = (sig, []) := by
  simp [checkWarningTimer, h, h2]

theorem checkWarningTimer_fire {sig : SignalInfo} (id : String) (v : ℚ)
    (t : Int) (h : sig.warningTimerActive = true)
    (h2 : sig.config.tsMs ≤ t - sig.warningStartTime) :
    checkWarningTimer id sig v t =
      ({ sig with warningTimerActive := false },
       if sig.config.hasWarningCallback then [CallbackEvent.warning id v]
       else []) := by
  simp [checkWarningTimer, h, h2]

theorem checkFaultTimer_inactive {sig : SignalInfo} (id : String) (v : ℚ)
    (t : Int) (h : sig.faultTimerActive = false) :
    checkFaultTimer id sig v t = (sig, []) := by
  simp [checkFaultTimer, h]

theorem checkFaultTimer_pending {sig : SignalInfo} (id : String) (v : ℚ)
    (t : Int) (h : sig.faultTimerActive = true)
    (h2 : ¬ sig.config.tsMs ≤ t - sig.faultStartTime) :
    checkFaultTimer id sig v t = (sig, []) := by
  simp [checkFaultTimer, h, h2]

theorem checkAndTriggerCallback_inactive {sig : SignalInfo} (id : String)
    (v : ℚ) (t : Int) (hw : sig.warningTimerActive = false)
    (hf : sig.faultTimerActive = false) :
    checkAndTriggerCallback id sig v t = (sig, []) := by
  simp [checkAndTriggerCallback,
    checkWarningTimer_inactive id v t hw, checkFaultTimer_inactive id v t hf]

theorem checkAndTriggerCallback_w_pending {sig : SignalInfo} (id : String)
    (v : ℚ) (t : Int) (hw : sig.warningTimerActive = true)
    (hel : ¬ sig.config.tsMs ≤ t - sig.warningStartTime)
    (hf : sig.faultTimerActive = false) :
    checkAndTriggerCallback id sig v t = (sig, []) := by
  simp [checkAndTriggerCallback, checkWarningTimer_pending id v t hw hel,
    checkFaultTimer_inactive id v t hf]

theorem checkAndTriggerCallback_w_fire {sig : SignalInfo} (id : String)
    (v : ℚ) (t : Int) (hw : sig.warningTimerActive = true)
    (hel : sig.config.tsMs ≤ t - sig.warningStartTime)
    (hf : sig.faultTimerActive = false)
    (hcb : sig.config.hasWarningCallback = true) :
    checkAndTriggerCallback id sig v t =
      ({ sig with warningTimerActive := false },
       [CallbackEvent.warning id v]) := by
  have h2 :=
    @checkFaultTimer_inactive { sig with warningTimerActive := false } id v t hf
  simp [checkAndTriggerCallback, checkWarningTimer_fire id v t hw hel, hcb, h2]

theorem checkSignal_none (id : String) (sig : SignalInfo) (now : Int) :
    checkSignal id sig now none = (sig, []) := rfl

theorem checkSignal_notArmed {sig : SignalInfo} (id : String) {now : Int}
    (v : ℚ) (h : now - sig.registrationTime < sig.config.tcMs) :
    checkSignal id sig now (some v) = (sig, []) := by
  simp [checkSignal, h]

theorem checkSignal_armed {sig : SignalInfo} (id : String) {now : Int}
    (v : ℚ) (h : ¬ now - sig.registrationTime < sig.config.tcMs) :
    checkSignal id sig now (some v) =
      checkAndTriggerCallback id
        (if targetStateOf sig.config |v - sig.config.targetValue| ≠ sig.currentState
         then handleStateTransition sig
                (targetStateOf sig.config |v - sig.config.targetValue|) now
         else sig) v now := by
  simp [checkSignal, h]

theorem checkSignal_armed_noTransition {sig : SignalInfo} (id : String)
    {now : Int} (v : ℚ) (h : ¬ now - sig.registrationTime < sig.config.tcMs)
    (heq : targetStateOf sig.config |v - sig.config.targetValue| = sig.currentState) :
    checkSignal id sig now (some v) = checkAndTriggerCallback id sig v now := by
  rw [checkSignal_armed id v h, if_neg (not_ne_iff.mpr heq)]

theorem checkSignal_armed_transition {sig : SignalInfo} (id : String)
    {now : Int} (v : ℚ) (h : ¬ now - sig.registrationTime < sig.config.tcMs)
    (hne : targetStateOf sig.config |v - sig.config.targetValue| ≠ sig.currentState) :
    checkSignal id sig now (some v) =
      checkAndTriggerCallback id
        (handleStateTransition sig
          (targetStateOf sig.config |v - sig.config.targetValue|) now) v now := by
  rw [checkSignal_armed id v h, if_pos hne]

theorem runTicks_nil (id : String) (sig : SignalInfo) :
    runTicks id sig [] = (sig, []) := rfl

theorem runTicks_cons (id : String) (sig : SignalInfo) (t : Int)
    (v : Option ℚ) (rest : List (Int × Option ℚ)) :
    runTicks id sig ((t, v) :: rest) =
      ((runTicks id (checkSignal id sig t v).1 rest).1,
       (checkSignal id sig t v).2 ++
         (runTicks id (checkSignal id sig t v).1 rest).2) := rfl

theorem runTicksOk_nil (id : String) (sig : SignalInfo) :
    runTicksOk id sig [] = (sig, []) := rfl

theorem runTicksOk_cons (id : String) (sig : SignalInfo) (t : Int) (v : ℚ)
    (rest : List (Int × ℚ)) :
    runTicksOk id sig ((t, v) :: rest) =
      ((runTicksOk id (checkSignal id sig t (some v)).1 rest).1,
       (checkSignal id sig t (some v)).2 ++
         (runTicksOk id (checkSignal id sig t (some v)).1 rest).2) := rfl

theorem checkWarningTimer_fst_cases (id : String) (sig : SignalInfo) (v : ℚ)
    (t : Int) :
    (checkWarningTimer id sig v t).1 = sig ∨
    (checkWarningTimer id sig v t).1 = { sig with warningTimerActive := false } := by
  unfold checkWarningTimer
  split_ifs <;> simp

theorem checkFaultTimer_fst_cases (id : String) (sig : SignalInfo) (v : ℚ)
    (t : Int) :
    (checkFaultTimer id sig v t).1 = sig ∨
    (checkFaultTimer id sig v t).1 = { sig with faultTimerActive := false } := by
  unfold checkFaultTimer
  split_ifs <;> simp

theorem checkAndTriggerCallback_fst_cases (id : String) (sig : SignalInfo)
    (v : ℚ) (t : Int) :
    (checkAndTriggerCallback id sig v t).1 = sig ∨
    (checkAndTriggerCallback id sig v t).1 = { sig with warningTimerActive := false } ∨
    (checkAndTriggerCallback id sig v t).1 = { sig with faultTimerActive := false } ∨
    (checkAndTriggerCallback id sig v t).1 =
      { sig with warningTimerActive := false, faultTimerActive := false } := by
  have hfst : (checkAndTriggerCallback id sig v t).1 =
      (checkFaultTimer id (checkWarningTimer id sig v t).1 v t).1 := rfl
  rcases checkWarningTimer_fst_cases id sig v t with h1 | h1 <;>
    rw [hfst, h1] <;>
    rcases checkFaultTimer_fst_cases id _ v t with h2 | h2 <;>
    rw [h2] <;> simp

theorem checkAndTriggerCallback_currentState (id : String) (sig : SignalInfo)
    (v : ℚ) (t : Int) :
    (checkAndTriggerCallback id sig v t).1.currentState = sig.currentState := by
  rcases checkAndTriggerCallback_fst_cases id sig v t with h | h | h | h <;>
    rw [h]

theorem checkSignal_armed_ne_unknown {sig : SignalInfo} (id : String)
    {now : Int} (v : ℚ) (h : ¬ now - sig.registrationTime < sig.config.tcMs) :
    (checkSignal id sig now (some v)).1.currentState ≠ SignalState.UNKNOWN := by
  rw [checkSignal_armed id v h, checkAndTriggerCallback_currentState]
  split
  · rw [handleStateTransition_currentState]
    exact targetStateOf_ne_unknown _ _
  · next hne =>
    rw [not_ne_iff] at hne
    rw [← hne]
    exact targetStateOf_ne_unknown _ _

theorem checkSignal_fst_ne_unknown {sig : SignalInfo} (id : String)
    (now : Int) (r : Option ℚ)
    (h : sig.currentState ≠ SignalState.UNKNOWN) :
    (checkSignal id sig now r).1.currentState ≠ SignalState.UNKNOWN := by
  cases r with
  | none => exact h
  | some v =>
      by_cases harm : now - sig.registrationTime < sig.config.tcMs
      · rw [checkSignal_notArmed id v harm]; exact h
      · exact checkSignal_armed_ne_unknown id v harm

theorem runTicks_fst_ne_unknown (id : String) (l : List (Int × Option ℚ)) :
    ∀ {sig : SignalInfo}, sig.currentState ≠ SignalState.UNKNOWN →
      (runTicks id sig l).1.currentState ≠ SignalState.UNKNOWN := by
  induction l with
  | nil => intro sig h; exact h
  | cons hd rest ih =>
      intro sig h
      obtain ⟨t, v⟩ := hd
      rw [runTicks_cons]
      exact ih (checkSignal_fst_ne_unknown id t v h)

theorem countWarning_nil : countWarning [] = 0 := rfl

theorem countWarning_append (a b : List CallbackEvent) :
    countWarning (a ++ b) = countWarning a + countWarning b := by
  simp [countWarning, List.countP_append]

theorem countWarning_single_warning (id : String) (v : ℚ) :
    countWarning [CallbackEvent.warning id v] = 1 := rfl

/-- Once `WARNING` is committed and both timers are clear, ticks that stay
armed and in the warning band leave the record unchanged and fire nothing. -/
theorem run_warning_stable {id : String} {sig : SignalInfo}
    (hcur : sig.currentState = SignalState.WARNING)
    (hw : sig.warningTimerActive = false) (hf : sig.faultTimerActive = false) :
    ∀ l : List (Int × ℚ),
      (∀ p ∈ l, ¬ p.1 - sig.registrationTime < sig.config.tcMs ∧
        sig.config.warningThreshold ≤ |p.2 - sig.config.targetValue| ∧
        |p.2 - sig.config.targetValue| < sig.config.faultThreshold) →
      runTicksOk id sig l = (sig, []) := by
  intro l
  induction l with
  | nil => intro _; rfl
  | cons hd rest ih =>
      intro H
      obtain ⟨t, v⟩ := hd
      obtain ⟨harm, hlo, hhi⟩ := H (t, v) (List.mem_cons_self _ _)
      have hstep : checkSignal id sig t (some v) = (sig, []) := by
        rw [checkSignal_armed_noTransition id v harm
          (by rw [targetStateOf_warning hlo hhi, hcur])]
        exact checkAndTriggerCallback_inactive id v t hw hf
      rw [runTicksOk_cons, hstep,
        ih (fun p hp => H p (List.mem_cons_of_mem _ hp))]
      rfl

/-- While the warning confirmation timer is pending and the ticks stay armed
and in the warning band, the classification remains `WARNING` and the
warning notifier fires exactly when some tick reaches the confirmation
window, exactly once. -/
theorem run_warning_pending {id : String} {sig : SignalInfo}
    (hcur : sig.currentState = SignalState.WARNING)
    (hw : sig.warningTimerActive = true)
    (hf : sig.faultTimerActive = false)
    (hcb : sig.config.hasWarningCallback = true) :
    ∀ l : List (Int × ℚ),
      (∀ p ∈ l, ¬ p.1 - sig.registrationTime < sig.config.tcMs ∧
        sig.config.warningThreshold ≤ |p.2 - sig.config.targetValue| ∧
        |p.2 - sig.config.targetValue| < sig.config.faultThreshold) →
      (runTicksOk id sig l).1.currentState = SignalState.WARNING ∧
      countWarning (runTicksOk id sig l).2 =
        (if ∃ p ∈ l, sig.config.tsMs ≤ p.1 - sig.warningStartTime then 1 else 0) := by
  intro l
  induction l with
  | nil =>
      intro _
      refine ⟨hcur, ?_⟩
      rw [if_neg (by simp)]
      rfl
  | cons hd rest ih =>
      intro H
      obtain ⟨t, v⟩ := hd
      obtain ⟨harm, hlo, hhi⟩ := H (t, v) (List.mem_cons_self _ _)
      by_cases hel : sig.config.tsMs ≤ t - sig.warningStartTime
      · -- the timer elapses on this tick: deactivate and fire once
        have hstep : checkSignal id sig t (some v) =
            ({ sig with warningTimerActive := false },
             [CallbackEvent.warning id v]) := by
          rw [checkSignal_armed_noTransition id v harm
            (by rw [targetStateOf_warning hlo hhi, hcur])]
          exact checkAndTriggerCallback_w_fire id v t hw hel hf hcb
        have hstable :=
          @run_warning_stable id { sig with warningTimerActive := false }
            hcur rfl hf rest (fun p hp => H p (List.mem_cons_of_mem _ hp))
        rw [runTicksOk_cons, hstep, hstable]
        refine ⟨hcur, ?_⟩
        rw [if_pos ⟨(t, v), List.mem_cons_self _ _, hel⟩]
        rfl
      · -- the timer is still pending: nothing changes on this tick
        have hstep : checkSignal id sig t (some v) = (sig, []) := by
          rw [checkSignal_armed_noTransition id v harm
            (by rw [targetStateOf_warning hlo hhi, hcur])]
          exact checkAndTriggerCallback_w_pending id v t hw hel hf
        obtain ⟨ih1, ih2⟩ := ih (fun p hp => H p (List.mem_cons_of_mem _ hp))
        rw [runTicksOk_cons, hstep]
        refine ⟨ih1, ?_⟩
        have hiff : (∃ p ∈ (t, v) :: rest, sig.config.tsMs ≤ p.1 - sig.warningStartTime) ↔
            (∃ p ∈ rest, sig.config.tsMs ≤ p.1 - sig.warningStartTime) := by
          constructor
          · rintro ⟨p, hp, hP⟩
            rcases List.mem_cons.mp hp with hp1 | hp1
            · rw [hp1] at hP
              exact absurd hP hel
            · exact ⟨p, hp1, hP⟩
          · rintro ⟨p, hp, hP⟩
            exact ⟨p, List.mem_cons_of_mem _ hp, hP⟩
        rw [List.nil_append, ih2, if_congr hiff rfl rfl]

theorem checkFaultTimer_fire {sig : SignalInfo} (id : String) (v : ℚ)
    (t : Int) (h : sig.faultTimerActive = true)
    (h2 : sig.config.tsMs ≤ t - sig.faultStartTime) :
    checkFaultTimer id sig v t =
      ({ sig with faultTimerActive := false },
       if sig.config.hasFaultCallback then [CallbackEvent.fault id v]
       else []) := by
  simp [checkFaultTimer, h, h2]

theorem checkWarningTimer_fst_preserves (id : String) (sig : SignalInfo)
    (v : ℚ) (t : Int) :
    (checkWarningTimer id sig v t).1.currentState = sig.currentState ∧
    (checkWarningTimer id sig v t).1.config = sig.config ∧
    (checkWarningTimer id sig v t).1.faultTimerActive = sig.faultTimerActive ∧
    (checkWarningTimer id sig v t).1.faultStartTime = sig.faultStartTime := by
  rcases checkWarningTimer_fst_cases id sig v t with h | h <;> rw [h] <;>
    exact ⟨rfl, rfl, rfl, rfl⟩

theorem checkFaultTimer_fst_preserves (id : String) (sig : SignalInfo)
    (v : ℚ) (t : Int) :
    (checkFaultTimer id sig v t).1.currentState = sig.currentState ∧
    (checkFaultTimer id sig v t).1.config = sig.config ∧
    (checkFaultTimer id sig v t).1.warningTimerActive = sig.warningTimerActive ∧
    (checkFaultTimer id sig v t).1.warningStartTime = sig.warningStartTime := by
  rcases checkFaultTimer_fst_cases id sig v t with h | h <;> rw [h] <;>
    exact ⟨rfl, rfl, rfl, rfl⟩

/-- Expiry of the warning timer deactivates it on that tick, with or without
a registered warning notifier. -/
theorem checkAndTriggerCallback_w_deactivates {sig : SignalInfo} (id : String)
    (v : ℚ) (t : Int) (hw : sig.warningTimerActive = true)
    (hel : sig.config.tsMs ≤ t - sig.warningStartTime) :
    (checkAndTriggerCallback id sig v t).1.warningTimerActive = false := by
  have hfst : (checkAndTriggerCallback id sig v t).1 =
      (checkFaultTimer id (checkWarningTimer id sig v t).1 v t).1 := rfl
  have h1 : (checkWarningTimer id sig v t).1 =
      { sig with warningTimerActive := false } := by
    rw [checkWarningTimer_fire id v t hw hel]
  rw [hfst, h1]
  rcases checkFaultTimer_fst_cases id
    ({ sig with warningTimerActive := false }) v t with h2 | h2 <;> rw [h2]

/-- Expiry of the fault timer deactivates it on that tick, with or without a
registered fault notifier. -/
theorem checkAndTriggerCallback_f_deactivates {sig : SignalInfo} (id : String)
    (v : ℚ) (t : Int) (hf : sig.faultTimerActive = true)
    (hel : sig.config.tsMs ≤ t - sig.faultStartTime) :
    (checkAndTriggerCallback id sig v t).1.faultTimerActive = false := by
  have hfst : (checkAndTriggerCallback id sig v t).1 =
      (checkFaultTimer id (checkWarningTimer id sig v t).1 v t).1 := rfl
  rw [hfst]
  rcases checkWarningTimer_fst_cases id sig v t with h1 | h1 <;> rw [h1]
  · rw [checkFaultTimer_fire id v t hf hel]
  · rw [@checkFaultTimer_fire
      { sig with warningTimerActive := false } id v t hf hel]

theorem checkWarningTimer_snd_mem (id : String) (sig : SignalInfo) (v : ℚ)
    (t : Int) :
    ∀ e ∈ (checkWarningTimer id sig v t).2, e = CallbackEvent.warning id v := by
  unfold checkWarningTimer
  split_ifs <;> simp

theorem checkFaultTimer_snd_mem (id : String) (sig : SignalInfo) (v : ℚ)
    (t : Int) :
    ∀ e ∈ (checkFaultTimer id sig v t).2, e = CallbackEvent.fault id v := by
  unfold checkFaultTimer
  split_ifs <;> simp

theorem checkAndTriggerCallback_snd_mem (id : String) (sig : SignalInfo)
    (v : ℚ) (t : Int) :
    ∀ e ∈ (checkAndTriggerCallback id sig v t).2,
      e = CallbackEvent.warning id v ∨ e = CallbackEvent.fault id v := by
  intro e he
  have hsnd : (checkAndTriggerCallback id sig v t).2 =
      (checkWarningTimer id sig v t).2 ++
        (checkFaultTimer id (checkWarningTimer id sig v t).1 v t).2 := rfl
  rw [hsnd] at he
  rcases List.mem_append.mp he with h | h
  · exact Or.inl (checkWarningTimer_snd_mem id sig v t e h)
  · exact Or.inr (checkFaultTimer_snd_mem id _ v t e h)

theorem checkSignal_snd_signalId (id : String) (sig : SignalInfo) (now : Int)
    (r : Option ℚ) :
    ∀ e ∈ (checkSignal id sig now r).2, e.signalId = id := by
  intro e he
  cases r with
  | none => simp [checkSignal_none] at he
  | some v =>
      by_cases harm : now - sig.registrationTime < sig.config.tcMs
      · rw [checkSignal_notArmed id v harm] at he
        simp at he
      · rw [checkSignal_armed id v harm] at he
        rcases checkAndTriggerCallback_snd_mem id _ v now e he with h | h <;>
          rw [h] <;> rfl

/-- With no warning notifier registered, the warning-timer check never emits
a warning invocation. -/
theorem checkWarningTimer_snd_no_cb {sig : SignalInfo} (id : String) (v : ℚ)
    (t : Int) (hcb : sig.config.hasWarningCallback = false) :
    (checkWarningTimer id sig v t).2 = [] := by
  unfold checkWarningTimer
  split_ifs <;> first | rfl | simp_all

/-- With no fault notifier registered, the fault-timer check never emits a
fault invocation. -/
theorem checkFaultTimer_snd_no_cb {sig : SignalInfo} (id : String) (v : ℚ)
    (t : Int) (hcb : sig.config.hasFaultCallback = false) :
    (checkFaultTimer id sig v t).2 = [] := by
  unfold checkFaultTimer
  split_ifs <;> first | rfl | simp_all

theorem normalTimersInv_mk (cfg : SignalConfig) (now : Int) :
    normalTimersInv (mkSignalInfo cfg now) := by
  intro h
  simp [mkSignalInfo] at h

theorem normalTimersInv_hst (st : SignalState) (t : Int) (sig : SignalInfo) :
    normalTimersInv (handleStateTransition sig st t) := by
  intro hN
  have hs : st = SignalState.NORMAL := by
    rw [← handleStateTransition_currentState sig st t, hN]
  subst hs
  rw [handleStateTransition_normal]
  exact ⟨rfl, rfl⟩

theorem normalTimersInv_catc (id : String) (v : ℚ) (t : Int)
    {sig : SignalInfo} (h : normalTimersInv sig) :
    normalTimersInv (checkAndTriggerCallback id sig v t).1 := by
  rcases checkAndTriggerCallback_fst_cases id sig v t with hc | hc | hc | hc <;>
    rw [hc] <;> intro hN
  · exact h hN
  · exact ⟨rfl, (h hN).2⟩
  · exact ⟨(h hN).1, rfl⟩
  · exact ⟨rfl, rfl⟩

theorem normalTimersInv_checkSignal (id : String) (now : Int) (r : Option ℚ)
    {sig : SignalInfo} (h : normalTimersInv sig) :
    normalTimersInv (checkSignal id sig now r).1 := by
  cases r with
  | none => exact h
  | some v =>
      by_cases harm : now - sig.registrationTime < sig.config.tcMs
      · rw [checkSignal_notArmed id v harm]; exact h
      · rw [checkSignal_armed id v harm]
        apply normalTimersInv_catc
        split
        · exact normalTimersInv_hst _ _ _
        · exact h

theorem runTicksOk_unknown_iff {id : String} {sig : SignalInfo}
    (hU : sig.currentState = SignalState.UNKNOWN) :
    ∀ l : List (Int × ℚ),
      ((runTicksOk id sig l).1.currentState = SignalState.UNKNOWN ↔
        ∀ p ∈ l, p.1 - sig.registrationTime < sig.config.tcMs) := by
  intro l
  induction l with
  | nil => simpa [runTicksOk_nil] using hU
  | cons hd rest ih =>
      obtain ⟨t, v⟩ := hd
      by_cases harm : t - sig.registrationTime < sig.config.tcMs
      · rw [runTicksOk_cons, checkSignal_notArmed id v harm]
        dsimp only
        constructor
        · intro hU2 p hp
          rcases List.mem_cons.mp hp with hp1 | hp1
          · rw [hp1]; exact harm
          · exact ih.mp hU2 p hp1
        · intro hall
          exact ih.mpr (fun p hp => hall p (List.mem_cons_of_mem _ hp))
      · have hne := @checkSignal_armed_ne_unknown sig id t v harm
        rw [runTicksOk_cons]
        dsimp only
        have h2 : (runTicksOk id (checkSignal id sig t (some v)).1 rest).1.currentState ≠
            SignalState.UNKNOWN :=
          runTicks_fst_ne_unknown id _ hne
        constructor
        · intro hcontra
          exact absurd hcontra h2
        · intro hall
          exact absurd (hall (t, v) (List.mem_cons_self _ _)) harm

theorem sweepSignals_nil (now : Int) (env : String → Option ℚ) :
    sweepSignals now env [] = ([], []) := rfl

theorem sweepSignals_cons (now : Int) (env : String → Option ℚ) (id : String)
    (sig : SignalInfo) (rest : List (String × SignalInfo)) :
    sweepSignals now env ((id, sig) :: rest) =
      ((id, (checkSignal id sig now (env id)).1) :: (sweepSignals now env rest).1,
       (checkSignal id sig now (env id)).2 ++ (sweepSignals now env rest).2) := rfl

theorem sweepSignals_fst_map (now : Int) (env : String → Option ℚ) :
    ∀ l : List (String × SignalInfo),
      (sweepSignals now env l).1 =
        l.map (fun p => (p.1, (checkSignal p.1 p.2 now (env p.1)).1)) := by
  intro l
  induction l with
  | nil => rfl
  | cons hd rest ih =>
      obtain ⟨id, sig⟩ := hd
      rw [sweepSignals_cons, ih]
      rfl

theorem sweepSignals_snd_not_skipped {id0 : String}
    {env : String → Option ℚ} (now : Int) (h0 : env id0 = none) :
    ∀ l : List (String × SignalInfo),
      ∀ e ∈ (sweepSignals now env l).2, e.signalId ≠ id0 := by
  intro l
  induction l with
  | nil => intro e he; simp [sweepSignals_nil] at he
  | cons hd rest ih =>
      obtain ⟨id, sig⟩ := hd
      intro e he
      rw [sweepSignals_cons] at he
      rcases List.mem_append.mp he with h | h
      · intro heq
        have hid := checkSignal_snd_signalId id sig now (env id) e h
        rw [hid] at heq
        subst heq
        rw [h0] at h
        simp [checkSignal_none] at h
      · exact ih e h

theorem lookup_append_self {l : List (String × SignalInfo)} {id : String}
    (x : SignalInfo) (h : l.lookup id = none) :
    (l ++ [(id, x)]).lookup id = some x := by
  induction l with
  | nil => simp [List.lookup]
  | cons hd tl ih =>
      obtain ⟨k, y⟩ := hd
      by_cases hk : (id == k) = true
      · rw [List.lookup] at h
        simp [hk] at h
      · rw [List.cons_append, List.lookup] at *
        simp only [hk] at h ⊢
        exact ih h

/-- C2, counterexample: after an armed signal enters the warning band at
t = 0 (value 5, deviation 5) and then the fault band at t = 10 (value 20,
deviation 20) before the warning window of 100 ms elapses, BOTH the warning
timer and the fault timer are active at once — the transition into the FAULT
band does not cancel the warning timer, refuting the claimed mutual
exclusion. The registration conjunct ties `sig0` to a real `registerSignal`
call. -/
theorem claim_C2_counterexample :
    (registerSignal tc0 "s" cfg0 0).1.signals = [("s", sig0)] ∧
    (runTicksOk "s" sig0 [(0, 5), (10, 20)]).1.warningTimerActive = true ∧
    (runTicksOk "s" sig0 [(0, 5), (10, 20)]).1.faultTimerActive = true := by
  refine ⟨rfl, ?_, ?_⟩ <;>
    norm_num [runTicksOk, runTicks, checkSignal, targetStateOf,
      checkAndTriggerCallback, checkWarningTimer, checkFaultTimer,
      handleStateTransition, sig0, cfg0, mkSignalInfo,
      unknown_ne_normal, unknown_ne_warning, unknown_ne_fault,
      normal_ne_unknown, normal_ne_warning, normal_ne_fault,
      warning_ne_unknown, warning_ne_normal, warning_ne_fault,
      fault_ne_unknown, fault_ne_normal, fault_ne_warning]

/-- C2 (amended): a transition into NORMAL clears both confirmation timers
and a transition into the WARNING band cancels the fault timer, but a
transition into the FAULT band leaves the warning timer exactly as it was,
so both timers can be active at the same instant. -/
theorem claim_C2 (sig : SignalInfo) (t : Int) :
    (handleStateTransition sig SignalState.NORMAL t).warningTimerActive = false ∧
    (handleStateTransition sig SignalState.NORMAL t).faultTimerActive = false ∧
    (handleStateTransition sig SignalState.WARNING t).faultTimerActive = false ∧
    (handleStateTransition sig SignalState.FAULT t).warningTimerActive =
      sig.warningTimerActive := by
  refine ⟨rfl, rfl, ?_, ?_⟩
  · by_cases h : sig.warningTimerActive = false
    · rw [handleStateTransition_warning_fresh t h]
    · have h2 : sig.warningTimerActive = true := by
        revert h; cases sig.warningTimerActive <;> simp
      rw [handleStateTransition_warning_active t h2]
  · by_cases h : sig.faultTimerActive = false
    · rw [handleStateTransition_fault_fresh t h]
    · have h2 : sig.faultTimerActive = true := by
        revert h; cases sig.faultTimerActive <;> simp
      rw [handleStateTransition_fault_active t h2]

/-- C7: registering an id already present fails and mutates nothing, while
registering a fresh id succeeds and creates a record with classification
UNKNOWN and registration time `now`; success happens exactly when the id is
absent. -/
theorem claim_C7 (tc : ToleranceChecker) (id : String)
    (cfg : SignalConfig) (now : Int) :
    (∀ s, tc.signals.lookup id = some s →
      registerSignal tc id cfg now = (tc, false)) ∧
    (tc.signals.lookup id = none →
      (registerSignal tc id cfg now).2 = true ∧
      (registerSignal tc id cfg now).1.signals.lookup id =
        some (mkSignalInfo cfg now)) ∧
    ((registerSignal tc id cfg now).2 = true ↔ tc.signals.lookup id = none) ∧
    (mkSignalInfo cfg now).currentState = SignalState.UNKNOWN ∧
    (mkSignalInfo cfg now).registrationTime = now := by
  refine ⟨?_, ?_, ?_, rfl, rfl⟩
  · intro s hs
    unfold registerSignal
    rw [hs]
  · intro hn
    unfold registerSignal
    rw [hn]
    exact ⟨rfl, lookup_append_self _ hn⟩
  · cases h : tc.signals.lookup id <;> simp [registerSignal, h]

/-- C7 witness: on the concrete checker `tc1` (id `a` present) a second
registration fails with no mutation, and on the empty checker `tc0` a first
registration succeeds and stores the UNKNOWN record. -/
theorem claim_C7_witness :
    registerSignal tc1 "a" cfg0 5 = (tc1, false) ∧
    (registerSignal tc0 "a" cfg0 0).2 = true ∧
    (registerSignal tc0 "a" cfg0 0).1.signals.lookup "a" =
      some (mkSignalInfo cfg0 0) := by
  have h1 := (claim_C7 tc1 "a" cfg0 5).1 (mkSignalInfo cfg0 0) rfl
  have h2 := (claim_C7 tc0 "a" cfg0 0).2.1 rfl
  exact ⟨h1, h2.1, h2.2⟩

/-- C8: `getSignalState` returns NORMAL for an unregistered id and the
stored classification for a registered one. -/
theorem claim_C8 (tc : ToleranceChecker) (id : String) :
    (tc.signals.lookup id = none → getSignalState tc id = SignalState.NORMAL) ∧
    (∀ sig, tc.signals.lookup id = some sig →
      getSignalState tc id = sig.currentState) := by
  constructor
  · intro h
    unfold getSignalState
    rw [h]
  · intro sig h
    unfold getSignalState
    rw [h]

/-- C8 witness: the empty checker reports NORMAL for a ghost id, and `tc1`
reports the stored classification of id `a`. -/
theorem claim_C8_witness :
    getSignalState tc0 "ghost" = SignalState.NORMAL ∧
    getSignalState tc1 "a" = (mkSignalInfo cfg0 0).currentState := by
  refine ⟨(claim_C8 tc0 "ghost").1 rfl, ?_⟩
  exact (claim_C8 tc1 "a").2 (mkSignalInfo cfg0 0) rfl

/-- C9: `stopMonitoring` only clears the running flag; the signal map, the
poll interval, every query and every later removal are unaffected. -/
theorem claim_C9 (tc : ToleranceChecker) (id : String) :
    (stopMonitoring tc).signals = tc.signals ∧
    (stopMonitoring tc).checkIntervalMs = tc.checkIntervalMs ∧
    (stopMonitoring tc).isMonitoring = false ∧
    getSignalState (stopMonitoring tc) id = getSignalState tc id ∧
    (removeSignal (stopMonitoring tc) id).signals =
      (removeSignal tc id).signals := by
  unfold stopMonitoring
  by_cases h : tc.isMonitoring = false <;>
    simp [h, getSignalState, removeSignal]

/-- C4: a tick inside the arm-delay period leaves the record untouched and
fires nothing, whatever value the source returns; and over any sequence of
successful ticks from registration, the classification is UNKNOWN exactly
when every tick so far happened strictly inside the arm delay. -/
theorem claim_C4 (id : String) (cfg : SignalConfig) (reg : Int)
    (ticks : List (Int × ℚ)) {sig : SignalInfo} {now : Int} (v : ℚ)
    (hpre : now - sig.registrationTime < sig.config.tcMs) :
    checkSignal id sig now (some v) = (sig, []) ∧
    ((runTicksOk id (mkSignalInfo cfg reg) ticks).1.currentState =
        SignalState.UNKNOWN ↔
      ∀ p ∈ ticks, p.1 - reg < cfg.tcMs) := by
  refine ⟨checkSignal_notArmed id v hpre, ?_⟩
  exact runTicksOk_unknown_iff rfl ticks

/-- C4 witness: with an arm delay of 1000 ms, a tick at t = 500 with value 7
changes nothing, and after that one tick the classification is UNKNOWN
since 500 - 0 < 1000. -/
theorem claim_C4_witness :
    checkSignal "s" sigA 500 (some 7) = (sigA, []) ∧
    ((runTicksOk "s" (mkSignalInfo cfgA 0) [(500, 7)]).1.currentState =
        SignalState.UNKNOWN ↔
      ∀ p ∈ [((500 : Int), (7 : ℚ))], p.1 - 0 < cfgA.tcMs) :=
  @claim_C4 "s" cfgA 0 [(500, 7)] sigA 500 7
    (by norm_num [sigA, cfgA, mkSignalInfo])

/-- C5: on an armed tick whose deviation is strictly below the warning
threshold (the thresholds being ordered), the record commits NORMAL on that
same tick with both confirmation timers cleared, whatever the prior
classification was. -/
theorem claim_C5 (id : String) {sig : SignalInfo} {now : Int} {v : ℚ}
    (hInv : normalTimersInv sig)
    (harm : ¬ now - sig.registrationTime < sig.config.tcMs)
    (hdev : |v - sig.config.targetValue| < sig.config.warningThreshold)
    (hord : sig.config.warningThreshold ≤ sig.config.faultThreshold) :
    (checkSignal id sig now (some v)).1.currentState = SignalState.NORMAL ∧
    (checkSignal id sig now (some v)).1.warningTimerActive = false ∧
    (checkSignal id sig now (some v)).1.faultTimerActive = false := by
  have htar := targetStateOf_normal hdev (lt_of_lt_of_le hdev hord)
  by_cases hcur : sig.currentState = SignalState.NORMAL
  · rw [checkSignal_armed_noTransition id v harm (htar.trans hcur.symm)]
    obtain ⟨hw, hf⟩ := hInv hcur
    rw [checkAndTriggerCallback_inactive id v now hw hf]
    exact ⟨hcur, hw, hf⟩
  · have hne : targetStateOf sig.config |v - sig.config.targetValue| ≠
        sig.currentState := by
      rw [htar]
      exact fun h => hcur h.symm
    rw [checkSignal_armed_transition id v harm hne, htar,
      handleStateTransition_normal]
    rw [checkAndTriggerCallback_inactive id v now rfl rfl]
    exact ⟨rfl, rfl, rfl⟩

/-- C5 witness: from the committed-WARNING record `sigW`, an armed tick at
t = 300 with value 1/2 (deviation 1/2 < 1) recovers to NORMAL immediately
with both timers clear. -/
theorem claim_C5_witness :
    (checkSignal "s" sigW 300 (some (1/2))).1.currentState =
      SignalState.NORMAL ∧
    (checkSignal "s" sigW 300 (some (1/2))).1.warningTimerActive = false ∧
    (checkSignal "s" sigW 300 (some (1/2))).1.faultTimerActive = false :=
  @claim_C5 "s" sigW 300 (1/2)
    (fun _ => ⟨rfl, rfl⟩)
    (by norm_num [sigW, cfg0])
    (by norm_num [sigW, cfg0, abs_lt])
    (by norm_num [sigW, cfg0])

/-- C6: when the value source throws for a signal, that signal keeps its
exact record and produces no notifier invocation on this sweep, while every
signal in the sweep — the failing one included — is still evaluated
pointwise by `checkSignal`. -/
theorem claim_C6 (now : Int) (env : String → Option ℚ)
    (id0 : String) (s0 : SignalInfo) (l : List (String × SignalInfo))
    (h0 : env id0 = none) (hmem : (id0, s0) ∈ l) :
    checkSignal id0 s0 now (env id0) = (s0, []) ∧
    (id0, s0) ∈ (sweepSignals now env l).1 ∧
    (∀ e ∈ (sweepSignals now env l).2, e.signalId ≠ id0) ∧
    (sweepSignals now env l).1 =
      l.map (fun p => (p.1, (checkSignal p.1 p.2 now (env p.1)).1)) := by
  have h1 : checkSignal id0 s0 now (env id0) = (s0, []) := by
    rw [h0]
    exact checkSignal_none id0 s0 now
  refine ⟨h1, ?_, sweepSignals_snd_not_skipped now h0 l,
    sweepSignals_fst_map now env l⟩
  rw [sweepSignals_fst_map]
  refine List.mem_map.mpr ⟨(id0, s0), hmem, ?_⟩
  show (id0, (checkSignal id0 s0 now (env id0)).1) = (id0, s0)
  rw [h1]

/-- C6 witness: in a two-signal sweep where acquisition throws for id `bad`
and succeeds for id `a`, the record of `bad` survives unchanged, no event
names `bad`, and both entries are evaluated. -/
theorem claim_C6_witness :
    checkSignal "bad" sig0 50 (env0 "bad") = (sig0, []) ∧
    ("bad", sig0) ∈ (sweepSignals 50 env0 [("bad", sig0), ("a", sigN)]).1 ∧
    (∀ e ∈ (sweepSignals 50 env0 [("bad", sig0), ("a", sigN)]).2,
      e.signalId ≠ "bad") ∧
    (sweepSignals 50 env0 [("bad", sig0), ("a", sigN)]).1 =
      [("bad", sig0), ("a", sigN)].map
        (fun p => (p.1, (checkSignal p.1 p.2 50 (env0 p.1)).1)) :=
  claim_C6 50 env0 "bad" sig0 [("bad", sig0), ("a", sigN)]
    rfl (List.mem_cons_self _ _)

/-- C10: with a notifier capability unset, the expiry of that confirmation
timer still deactivates the timer, the tick completes with the state
committed as usual, and no invocation of the missing notifier is produced. -/
theorem claim_C10 (id : String) (sig : SignalInfo) (v : ℚ) (t : Int) :
    (sig.config.hasWarningCallback = false →
      (∀ e ∈ (checkAndTriggerCallback id sig v t).2, e.isWarning = false) ∧
      (sig.warningTimerActive = true →
        sig.config.tsMs ≤ t - sig.warningStartTime →
        (checkAndTriggerCallback id sig v t).1.warningTimerActive = false)) ∧
    (sig.config.hasFaultCallback = false →
      (∀ e ∈ (checkAndTriggerCallback id sig v t).2, e.isFault = false) ∧
      (sig.faultTimerActive = true →
        sig.config.tsMs ≤ t - sig.faultStartTime →
        (checkAndTriggerCallback id sig v t).1.faultTimerActive = false)) ∧
    (checkAndTriggerCallback id sig v t).1.currentState = sig.currentState := by
  have hsnd : (checkAndTriggerCallback id sig v t).2 =
      (checkWarningTimer id sig v t).2 ++
        (checkFaultTimer id (checkWarningTimer id sig v t).1 v t).2 := rfl
  refine ⟨?_, ?_, checkAndTriggerCallback_currentState id sig v t⟩
  · intro hcb
    constructor
    · intro e he
      rw [hsnd, checkWarningTimer_snd_no_cb id v t hcb] at he
      rw [List.nil_append] at he
      rw [checkFaultTimer_snd_mem id _ v t e he]
      rfl
    · intro hw hel
      exact checkAndTriggerCallback_w_deactivates id v t hw hel
  · intro hcb
    constructor
    · intro e he
      rw [hsnd] at he
      rcases List.mem_append.mp he with h | h
      · rw [checkWarningTimer_snd_mem id sig v t e h]
        rfl
      · have hcb2 : (checkWarningTimer id sig v t).1.config.hasFaultCallback =
            false := by
          rw [(checkWarningTimer_fst_preserves id sig v t).2.1]
          exact hcb
        rw [checkFaultTimer_snd_no_cb id v t hcb2] at h
        simp at h
    · intro hf hel
      exact checkAndTriggerCallback_f_deactivates id v t hf hel

/-- C10 witness: on the notifier-less record `sigQ` whose warning timer
expired 100 ms ago, the tick deactivates the timer and emits no warning
invocation. -/
theorem claim_C10_witness :
    (∀ e ∈ (checkAndTriggerCallback "s" sigQ 5 200).2, e.isWarning = false) ∧
    (checkAndTriggerCallback "s" sigQ 5 200).1.warningTimerActive = false ∧
    (checkAndTriggerCallback "s" sigQ 5 200).1.currentState =
      sigQ.currentState := by
  have h := claim_C10 "s" sigQ 5 200
  exact ⟨(h.1 rfl).1, (h.1 rfl).2 rfl (by norm_num [sigQ, cfgQ]), h.2.2⟩

/-- C1, counterexample: on the very tick where the deviation enters the
WARNING band (t = 0, value 5, deviation 5 within [1, 10)), the committed
classification already becomes WARNING although the warning timer has been
active for 0 ms, far less than the 100 ms confirmation window, and no
callback has fired yet — refuting the claim that the classification does
not become WARNING before the window elapses. -/
theorem claim_C1_counterexample :
    cfg0.tsMs = 100 ∧
    (runTicksOk "s" sig0 [(0, 5)]).1.currentState = SignalState.WARNING ∧
    (runTicksOk "s" sig0 [(0, 5)]).1.warningTimerActive = true ∧
    (runTicksOk "s" sig0 [(0, 5)]).1.warningStartTime = 0 ∧
    (runTicksOk "s" sig0 [(0, 5)]).2 = [] := by
  refine ⟨rfl, ?_, ?_, ?_, ?_⟩ <;>
    norm_num [runTicksOk, runTicks, checkSignal, targetStateOf,
      checkAndTriggerCallback, checkWarningTimer, checkFaultTimer,
      handleStateTransition, sig0, cfg0, mkSignalInfo,
      unknown_ne_normal, unknown_ne_warning, unknown_ne_fault,
      normal_ne_unknown, normal_ne_warning, normal_ne_fault,
      warning_ne_unknown, warning_ne_normal, warning_ne_fault,
      fault_ne_unknown, fault_ne_normal, fault_ne_warning]

/-- C1 (amended): on the tick where the deviation enters the WARNING band
the classification is committed to WARNING immediately; only the callback
is debounced: while the ticks stay armed and in the warning band, if every
tick happens before the confirmation window from band entry elapses, the
warning notifier never fires, and once some tick reaches the window it
fires exactly once. -/
theorem claim_C1 (id : String) {sig : SignalInfo} (t0 : Int) (v0 : ℚ)
    (rest : List (Int × ℚ))
    (hcur : sig.currentState = SignalState.NORMAL)
    (hw : sig.warningTimerActive = false)
    (hf : sig.faultTimerActive = false)
    (hcb : sig.config.hasWarningCallback = true)
    (hts : 0 < sig.config.tsMs)
    (H : ∀ p ∈ (t0, v0) :: rest,
      ¬ p.1 - sig.registrationTime < sig.config.tcMs ∧
      sig.config.warningThreshold ≤ |p.2 - sig.config.targetValue| ∧
      |p.2 - sig.config.targetValue| < sig.config.faultThreshold) :
    (runTicksOk id sig ((t0, v0) :: rest)).1.currentState =
      SignalState.WARNING ∧
    ((∀ p ∈ (t0, v0) :: rest, p.1 - t0 < sig.config.tsMs) →
      countWarning (runTicksOk id sig ((t0, v0) :: rest)).2 = 0) ∧
    ((∃ p ∈ (t0, v0) :: rest, sig.config.tsMs ≤ p.1 - t0) →
      countWarning (runTicksOk id sig ((t0, v0) :: rest)).2 = 1) := by
  obtain ⟨harm, hlo, hhi⟩ := H (t0, v0) (List.mem_cons_self _ _)
  have hne1 : targetStateOf sig.config |v0 - sig.config.targetValue| ≠
      sig.currentState := by
    rw [targetStateOf_warning hlo hhi, hcur]
    exact warning_ne_normal
  have hnotel : ¬ sig.config.tsMs ≤ t0 - t0 := by
    rw [sub_self]
    exact not_le.mpr hts
  have hstep : checkSignal id sig t0 (some v0) =
      ({ sig with
          currentState := SignalState.WARNING
          warningStartTime := t0
          warningTimerActive := true
          faultTimerActive := false },
       []) := by
    rw [checkSignal_armed_transition id v0 harm hne1,
      targetStateOf_warning hlo hhi,
      handleStateTransition_warning_fresh t0 hw]
    exact checkAndTriggerCallback_w_pending id v0 t0 rfl hnotel rfl
  obtain ⟨hp1, hp2⟩ := @run_warning_pending id
    { sig with
        currentState := SignalState.WARNING
        warningStartTime := t0
        warningTimerActive := true
        faultTimerActive := false }
    rfl rfl rfl hcb rest (fun p hp => H p (List.mem_cons_of_mem _ hp))
  rw [runTicksOk_cons, hstep]
  dsimp only
  refine ⟨hp1, ?_, ?_⟩
  · intro hall
    rw [List.nil_append, hp2, if_neg]
    rintro ⟨p, hp, hP⟩
    exact absurd hP (not_le.mpr (hall p (List.mem_cons_of_mem _ hp)))
  · rintro ⟨p, hp, hP⟩
    rw [List.nil_append, hp2]
    rcases List.mem_cons.mp hp with h | h
    · rw [h] at hP
      exact absurd hP hnotel
    · rw [if_pos ⟨p, h, hP⟩]

/-- C1 witness: with `sigN` (armed, NORMAL, window 100 ms), the in-band
ticks at t = 1000 and t = 1100 commit WARNING at once; they do not all stay
under the window (1100 - 1000 = 100), and the existing window-reaching tick
makes the notifier fire exactly once. -/
theorem claim_C1_witness :
    (runTicksOk "s" sigN (((1000 : Int), (5 : ℚ)) :: [(1100, 5)])).1.currentState =
      SignalState.WARNING ∧
    ((∀ p ∈ ((1000 : Int), (5 : ℚ)) :: [((1100 : Int), (5 : ℚ))],
        p.1 - 1000 < sigN.config.tsMs) →
      countWarning
        (runTicksOk "s" sigN (((1000 : Int), (5 : ℚ)) :: [(1100, 5)])).2 = 0) ∧
    ((∃ p ∈ ((1000 : Int), (5 : ℚ)) :: [((1100 : Int), (5 : ℚ))],
        sigN.config.tsMs ≤ p.1 - 1000) →
      countWarning
        (runTicksOk "s" sigN (((1000 : Int), (5 : ℚ)) :: [(1100, 5)])).2 = 1) :=
  @claim_C1 "s" sigN 1000 5 [(1100, 5)] rfl rfl rfl rfl
    (by norm_num [sigN, cfg0])
    (by
      intro p hp
      rcases List.mem_cons.mp hp with h | h
      · subst h
        refine ⟨?_, ?_, ?_⟩ <;> norm_num [sigN, cfg0]
      · rw [List.mem_singleton] at h
        subst h
        refine ⟨?_, ?_, ?_⟩ <;> norm_num [sigN, cfg0])

/-- C3, counterexample: enter the WARNING band at t = 0, the FAULT band at
t = 10 (classification FAULT, warning timer left running by the FAULT
transition), and stay there; at t = 100 the warning timer expires and the
warning notifier fires with the classification FAULT before, during and
after that tick — the callback is thus not restricted to ticks where the
classification is transitioning into WARNING. -/
theorem claim_C3_counterexample :
    (runTicksOk "s" sig0 [(0, 5), (10, 20)]).1.currentState =
      SignalState.FAULT ∧
    (runTicksOk "s" sig0 [(0, 5), (10, 20), (100, 20)]).1.currentState =
      SignalState.FAULT ∧
    (runTicksOk "s" sig0 [(0, 5), (10, 20), (100, 20)]).2 =
      [CallbackEvent.warning "s" 20] := by
  refine ⟨?_, ?_, ?_⟩ <;>
    norm_num [runTicksOk, runTicks, checkSignal, targetStateOf,
      checkAndTriggerCallback, checkWarningTimer, checkFaultTimer,
      handleStateTransition, sig0, cfg0, mkSignalInfo,
      unknown_ne_normal, unknown_ne_warning, unknown_ne_fault,
      normal_ne_unknown, normal_ne_warning, normal_ne_fault,
      warning_ne_unknown, warning_ne_normal, warning_ne_fault,
      fault_ne_unknown, fault_ne_normal, fault_ne_warning]

/-- C3 (amended): a level callback fires when that level's confirmation
timer expires, regardless of the classification committed at that tick; the
no-re-fire half holds as claimed: once WARNING is committed and its timer
has been consumed, further armed in-band ticks change nothing and invoke no
callback at all. -/
theorem claim_C3 (id : String) {sig : SignalInfo}
    (l : List (Int × ℚ))
    (hcur : sig.currentState = SignalState.WARNING)
    (hw : sig.warningTimerActive = false)
    (hf : sig.faultTimerActive = false)
    (H : ∀ p ∈ l, ¬ p.1 - sig.registrationTime < sig.config.tcMs ∧
      sig.config.warningThreshold ≤ |p.2 - sig.config.targetValue| ∧
      |p.2 - sig.config.targetValue| < sig.config.faultThreshold) :
    runTicksOk id sig l = (sig, []) :=
  run_warning_stable hcur hw hf l H

/-- C3 witness: on the confirmed-WARNING record `sigW`, an armed in-band
tick at t = 200 with value 5 leaves the record unchanged and fires
nothing. -/
theorem claim_C3_witness :
    runTicksOk "s" sigW [(200, 5)] = (sigW, []) :=
  @claim_C3 "s" sigW [(200, 5)] rfl rfl rfl
    (by
      intro p hp
      rw [List.mem_singleton] at hp
      subst hp
      refine ⟨?_, ?_, ?_⟩ <;> norm_num [sigW, cfg0])

end ToleranceMonitor
